import Mathlib

/-!
Shallow embedding of the FMS/TMS Load lifecycle state machine and its
business rules, translated from `src/tms/models.py` (namespace `TMS`, the
single-facility schema) and `src/tms/models_old.py` (namespace `TMSOld`,
the multi-stop schema), together with the accessorial validation of
`src/tms/forms.py`.

Modelling conventions:
* users, trucks, facilities and loads are identified by natural numbers;
* datetimes/dates are abstract instants (`Nat`); `timezone.now()` becomes
  an explicit `now` argument to each transition method;
* money (`DecimalField`) is `ℚ` with exact division;
* nullable columns are `Option`; Python truthiness of a nullable numeric
  field `x` is `x` being non-null and non-zero, of a nullable datetime or
  foreign key just non-null;
* a method that `raise`s returns `Except String`, carrying the message;
* Django's object store is passed explicitly: a transition that creates
  records returns them (`Handover.objects.create`, `Accessorial.objects.create`).
-/

/-- `leadsWith n h` is true when the char list `n` is an initial segment of `h`. -/
def leadsWith : List Char → List Char → Bool
  | [], _ => true
  | _ :: _, [] => false
  | a :: as, b :: bs => a == b && leadsWith as bs

/-- `subOccurs n h` is true when `n` occurs contiguously somewhere in `h`. -/
def subOccurs (n : List Char) : List Char → Bool
  | [] => n.isEmpty
  | c :: cs => leadsWith n (c :: cs) || subOccurs n cs

/-- The failure messages in the source are plain strings; claims speak of a
message "containing" a fragment, i.e. the fragment occurring as a contiguous
substring. -/
def containsSub (needle hay : String) : Bool :=
  subOccurs needle.data hay.data

/-- Python's `sep.join(parts)`, used by the source to aggregate guard
messages. -/
def joinSep (sep : String) : List String → String
  | [] => ""
  | [a] => a
  | a :: rest => a ++ sep ++ joinSep sep rest

namespace TMS

/-- `Load.Status` choices (src/tms/models.py 416-425). -/
inductive Status
  | booked
  | dispatched
  | in_transit
  | delivered
  | completed
  | cancelled
deriving DecidableEq

/-- Human labels of `Load.Status` (the second component of each choice). -/
def Status.label : Status → String
  | .booked => "Booked"
  | .dispatched => "Dispatched"
  | .in_transit => "In Transit"
  | .delivered => "Delivered"
  | .completed => "Completed"
  | .cancelled => "Cancelled"

/-- `Document.DOCUMENT_TYPE_CHOICES` (src/tms/models.py 274-282). -/
inductive DocumentType
  | RC
  | BOL
  | POD
  | DETENTION
  | LUMPER
  | TONU
  | OTHERS
deriving DecidableEq

/-- Labels of the document type choices. -/
def DocumentType.label : DocumentType → String
  | .RC => "Rate Confirmation"
  | .BOL => "Bill of Lading"
  | .POD => "Proof of Delivery"
  | .DETENTION => "Detention"
  | .LUMPER => "Lumper"
  | .TONU => "Truck Order Not Used"
  | .OTHERS => "Others"

/-- `Document.REQUIRED_FOR_COMPLETION = ["POD", "BOL"]` (src/tms/models.py 285). -/
def REQUIRED_FOR_COMPLETION : List DocumentType := [.POD, .BOL]

/-- An uploaded document attached to a load; only its type matters to the
state machine (src/tms/models.py 271-313). -/
structure Document where
  document_type : DocumentType
deriving DecidableEq

/-- `Truck.TruckStatus` choices (src/tms/models.py 147-152). -/
inductive TruckStatus
  | available
  | assigned
  | out_of_service
deriving DecidableEq

/-- Truck unit; only `current_status` is touched by the state machine
(src/tms/models.py 131-208). -/
structure Truck where
  current_status : TruckStatus
deriving DecidableEq

/-- `Accessorial.ChargeType` choices (src/tms/models.py 331-336). -/
inductive ChargeType
  | detention
  | layover
  | tonu
  | lumper
  | other
deriving DecidableEq

/-- Accessorial charge record (src/tms/models.py 316-407). -/
structure Accessorial where
  load : Nat
  charge_type : ChargeType
  amount : Option ℚ
  description : String := ""
  manager_approved : Bool := false
  broker_approved : Bool := false
  created_by : Nat
  detention_start : Option Nat := none
  detention_end : Option Nat := none
  detention_billed_hours : Option ℚ := none
  layover_start_date : Option Nat := none
  layover_end_date : Option Nat := none
deriving DecidableEq

/-- `Accessorial.is_approved` property (src/tms/models.py 392-400). -/
def Accessorial.is_approved (a : Accessorial) : Bool :=
  a.manager_approved && a.broker_approved

/-- `Accessorial.clean` (src/tms/models.py 387-390): raises exactly when the
amount is present and negative; `cleanOk` is true when it does not raise. -/
def Accessorial.cleanOk (a : Accessorial) : Bool :=
  match a.amount with
  | some x => decide (0 ≤ x)
  | none => true

/-- `AccessorialForm.clean` per-charge-type validation (src/tms/forms.py
415-450): detention requires both window bounds with end strictly after
start and a positive billed-hours value; layover requires both dates with
end on or after start; other charge types pass. True when it does not raise. -/
def accessorialFormClean (a : Accessorial) : Bool :=
  match a.charge_type with
  | .detention =>
    match a.detention_start, a.detention_end with
    | some s, some e =>
      decide (s < e) &&
        (match a.detention_billed_hours with
         | some h => decide (0 < h)
         | none => false)
    | _, _ => false
  | .layover =>
    match a.layover_start_date, a.layover_end_date with
    | some s, some e => decide (s ≤ e)
    | _, _ => false
  | _ => true

/-- Combined accessorial validation: the record-level `Accessorial.clean`
together with the form-level per-type checks. A record is rejected exactly
when this is false. -/
def accessorialValid (a : Accessorial) : Bool :=
  a.cleanOk && accessorialFormClean a

/-- Handover audit record (src/tms/models.py 1199-1237). `load` and
`to_agent` are kept as options so that the guard in `Handover.save` can be
stated exactly as written. -/
structure Handover where
  load : Option Nat
  from_agent : Nat
  to_agent : Option Nat
  special_instructions : String := ""
deriving DecidableEq

/-- Freight load, the central aggregate (src/tms/models.py 410-616); the
columns the state machine reads or writes. -/
structure Load where
  load_id : Nat
  status : Status
  carrier : Option Nat
  truck : Option Truck
  driver : Option Nat
  dispatcher : Nat
  tracking_agent : Option Nat
  documents : List Document
  miles : Option Nat
  rate : Option ℚ
  rpm : Option ℚ
  delivery_datetime : Option Nat
  dispatched_at : Option Nat
  pickup_departure_at : Option Nat
  delivered_at : Option Nat
  completed_at : Option Nat
  cancelled_at : Option Nat
deriving DecidableEq

/-- The rpm auto-calculation of `Load.save` (src/tms/models.py 606-613).
The Python guard `if self.miles and self.rate and self.miles > 0` is
truthiness: both non-null and non-zero (and miles positive); in every other
case `rpm` is cleared to null. -/
def rpmOf (miles : Option Nat) (rate : Option ℚ) : Option ℚ :=
  match miles, rate with
  | some m, some r =>
    if m ≠ 0 ∧ r ≠ 0 ∧ 0 < m then some (r / (m : ℚ)) else none
  | _, _ => none

/-- `Load.save` (src/tms/models.py 606-613): recompute `rpm` from the
current `rate` and `miles` on every save; no other column is derived. -/
def Load.save (l : Load) : Load :=
  { l with rpm := rpmOf l.miles l.rate }

/-- `Load.has_rate_confirmation` (src/tms/models.py 652-660). -/
def Load.has_rate_confirmation (l : Load) : Bool :=
  l.documents.any (fun d => d.document_type == DocumentType.RC)

/-- `Load.can_handover` (src/tms/models.py 662-680). -/
def Load.can_handover (l : Load) : Bool :=
  decide (l.status = Status.booked) && l.has_rate_confirmation &&
    l.carrier.isSome && l.truck.isSome && l.driver.isSome

/-- Effect of `Handover.save` (src/tms/models.py 1228-1237) on the load the
record references: when both `to_agent` and `load` are set, the load's
`tracking_agent` is overwritten with `to_agent` (persisted with
`update_fields=["tracking_agent"]`, so no other column changes). -/
def Handover.saveLoad (h : Handover) (l : Load) : Load :=
  match h.to_agent, h.load with
  | some a, some _ => { l with tracking_agent := some a }
  | _, _ => l

/-- The guard-clause block of `Load.handover_to_tracking`
(src/tms/models.py 813-823): every failed precondition appends its own
message, in source order. -/
def Load.handoverErrors (l : Load) : List String :=
  (if l.status ≠ Status.booked then ["Load is not in BOOKED status."] else []) ++
  (if l.has_rate_confirmation = false then
    ["Rate Confirmation document is missing."] else []) ++
  (if l.carrier = none ∨ l.truck = none ∨ l.driver = none then
    ["Carrier, Truck, and Driver must be assigned."] else [])

/-- `Load.handover_to_tracking` (src/tms/models.py 789-839).
BOOKED → DISPATCHED. Guard clauses collect every failed precondition into
`errors` and raise one aggregated message; on success `_transition` sets the
status, `tracking_agent` and `dispatched_at`, then saves, and one `Handover`
record is created (whose own save re-asserts `tracking_agent`). The created
record is appended to the given handover table. -/
def Load.handover_to_tracking (l : Load) (tracking_agent : Nat)
    (instructions : String) (now : Nat) (handovers : List Handover) :
    Except String (Load × List Handover) :=
  let errors : List String := l.handoverErrors
  if errors ≠ [] then
    .error ("Cannot handover load: " ++ joinSep "; " errors)
  else
    let l1 := Load.save { l with
      status := Status.dispatched,
      tracking_agent := some tracking_agent,
      dispatched_at := some now }
    let h : Handover := {
      load := some l.load_id, from_agent := l.dispatcher,
      to_agent := some tracking_agent, special_instructions := instructions }
    .ok (h.saveLoad l1, handovers ++ [h])

/-- `Load.start_transit` (src/tms/models.py 841-868): DISPATCHED → IN_TRANSIT. -/
def Load.start_transit (l : Load) (now : Nat) : Except String Load :=
  if l.status ≠ Status.dispatched then
    .error "Load is not in DISPATCHED status."
  else
    .ok (Load.save { l with
      status := Status.in_transit, pickup_departure_at := some now })

/-- `Load.mark_delivered` (src/tms/models.py 870-909): IN_TRANSIT → DELIVERED,
requiring every document type of `REQUIRED_FOR_COMPLETION` to exist. -/
def Load.mark_delivered (l : Load) (now : Nat) : Except String Load :=
  if l.status ≠ Status.in_transit then
    .error "Load is not in IN_TRANSIT status."
  else
    let missing_types : List String :=
      (REQUIRED_FOR_COMPLETION.filter
        (fun dt => !(l.documents.any (fun d => d.document_type == dt)))).map
        DocumentType.label
    if missing_types ≠ [] then
      .error ("Cannot mark as delivered. These documents are missing: " ++
        joinSep ", " missing_types)
    else
      .ok (Load.save { l with
        status := Status.delivered, delivered_at := some now })

/-- `Load.complete_load` (src/tms/models.py 911-933): DELIVERED → COMPLETED. -/
def Load.complete_load (l : Load) (now : Nat) : Except String Load :=
  if l.status ≠ Status.delivered then
    .error "Load is not in DELIVERED status."
  else
    .ok (Load.save { l with
      status := Status.completed, completed_at := some now })

/-- `Load.cancel` (src/tms/models.py 935-986). Refused from CANCELLED,
COMPLETED, DELIVERED; otherwise the status becomes CANCELLED, a TONU
accessorial is created (note that its description interpolates
`self.status` after the transition already ran), and an assigned truck is
freed.  The list returned alongside the load holds exactly the accessorial
records the call created. The `reason` argument is accepted but unused, as
in the source. -/
def Load.cancel (l : Load) (reason : String) (now : Nat) :
    Except String (Load × List Accessorial) :=
  if l.status = Status.cancelled ∨ l.status = Status.completed ∨
      l.status = Status.delivered then
    .error "Load is already CANCELLED, DELIVERED or COMPLETED."
  else
    let l1 := Load.save { l with
      status := Status.cancelled, cancelled_at := some now }
    let tonu : Accessorial := {
      load := l.load_id,
      charge_type := ChargeType.tonu, amount := some 0,
      description := "TONU charge - Load cancelled at " ++ l1.status.label,
      created_by := l.dispatcher }
    let l2 := { l1 with
      truck := l1.truck.map (fun t => { t with
        current_status := TruckStatus.available }) }
    .ok (l2, [tonu])

/-- Reschedule request (src/tms/models.py 989-1068), single-facility
variant: the proposed time targets the load's `delivery_datetime`. -/
structure RescheduleRequest where
  load : Nat
  original_appointment : Nat
  new_appointment : Nat
  consignee_approved : Bool := false
  broker_approved : Bool := false
  manager_approved : Bool := false
  created_by : Nat
deriving DecidableEq

/-- `RescheduleRequest.is_fully_approved` (src/tms/models.py 1055-1060). -/
def RescheduleRequest.is_fully_approved (r : RescheduleRequest) : Bool :=
  r.consignee_approved && r.broker_approved && r.manager_approved

/-- `RescheduleRequest.save` (src/tms/models.py 1062-1068): on every save,
if all three approvals hold, copy `new_appointment` into the load's
`delivery_datetime` (persisted with `update_fields=["delivery_datetime"]`,
so no other load column changes) inside the same atomic block. -/
def RescheduleRequest.save (r : RescheduleRequest) (l : Load) : Load :=
  if r.is_fully_approved then
    { l with delivery_datetime := some r.new_appointment }
  else
    l

end TMS

namespace TMSOld

open TMS (Status DocumentType Document Truck TruckStatus ChargeType)

/-- `LoadStop.StopType` choices (src/tms/models_old.py 442-444). -/
inductive StopType
  | pickup
  | delivery
deriving DecidableEq

/-- `LoadStop.StopStatus` choices (src/tms/models_old.py 446-451). -/
inductive StopStatus
  | pending
  | completed
  | skipped
deriving DecidableEq

/-- Appointment mode choices of a stop (src/tms/models_old.py 480-487). -/
inductive AppointmentType
  | appt
  | fcfs
deriving DecidableEq

/-- One stop of a multi-stop route (src/tms/models_old.py 437-528); the
columns the state machine reads or writes. -/
structure LoadStop where
  load : Nat
  stop_type : StopType
  sequence : Nat
  appointment_type : AppointmentType
  appt_start : Option Nat
  appt_end : Option Nat
  status : StopStatus
deriving DecidableEq

/-- Freight load of the multi-stop schema (src/tms/models_old.py 606-810);
it owns an ordered list of stops and has no load-level delivery datetime. -/
structure Load where
  load_id : Nat
  status : Status
  carrier : Option Nat
  truck : Option Truck
  driver : Option Nat
  dispatcher : Nat
  tracking_agent : Option Nat
  documents : List Document
  stops : List LoadStop
  miles : Option Nat
  rate : Option ℚ
  rpm : Option ℚ
  dispatched_at : Option Nat
  delivered_at : Option Nat
  completed_at : Option Nat
  cancelled_at : Option Nat
deriving DecidableEq

/-- `Load.save` (src/tms/models_old.py 803-810): the rpm recomputation is
textually identical to the one of src/tms/models.py, so `TMS.rpmOf` is
reused. -/
def Load.save (l : Load) : Load :=
  { l with rpm := TMS.rpmOf l.miles l.rate }

/-- `Load.has_rate_confirmation` (src/tms/models_old.py 892-902). -/
def Load.has_rate_confirmation (l : Load) : Bool :=
  l.documents.any (fun d => d.document_type == DocumentType.RC)

/-- `Load.can_handover` (src/tms/models_old.py 904-937): the basic checks of
the single-facility schema, plus the stops must be non-empty and every
`appt`-mode stop must carry a start or an end time. -/
def Load.can_handover (l : Load) : Bool :=
  (decide (l.status = Status.booked) && l.has_rate_confirmation &&
    l.carrier.isSome && l.truck.isSome && l.driver.isSome) &&
  !l.stops.isEmpty &&
  l.stops.all (fun s =>
    if s.appointment_type = AppointmentType.appt then
      s.appt_start.isSome || s.appt_end.isSome
    else
      true)

/-- True when some stop is in `appt` mode with neither window bound set
(the loop body of src/tms/models_old.py 1085-1093). -/
def Load.apptStopBad (l : Load) : Bool :=
  l.stops.any (fun s =>
    s.appointment_type == AppointmentType.appt &&
      s.appt_start.isNone && s.appt_end.isNone)

/-- The guard-clause block of the multi-stop `Load.handover_to_tracking`
(src/tms/models_old.py 1070-1093): the three basic guards, then the stop
guards; note the stop-count guard only tests `self.stops.exists()` despite
its message, and the appointment guard appends once thanks to the `break`. -/
def Load.handoverErrors (l : Load) : List String :=
  (if l.status ≠ Status.booked then ["Load is not in BOOKED status."] else []) ++
  (if l.has_rate_confirmation = false then
    ["Rate Confirmation document is missing."] else []) ++
  (if l.carrier = none ∨ l.truck = none ∨ l.driver = none then
    ["Carrier, Truck, and Driver must be assigned."] else []) ++
  (if l.stops = [] then
    ["At least 2 stops must be defined for the load."] else []) ++
  (if l.stops ≠ [] ∧ l.apptStopBad = true then
    ["All APPT stops must have at least appt_start (or a window)."] else [])

/-- `Load.handover_to_tracking` (src/tms/models_old.py 1046-1112):
BOOKED → DISPATCHED with the aggregated guard message; on success the load
transitions and one Handover record is created, appended to the given
handover table after its own save (which re-asserts the tracking agent)
ran. -/
def Load.handover_to_tracking (l : Load) (tracking_agent : Nat)
    (instructions : String) (now : Nat) (handovers : List TMS.Handover) :
    Except String (Load × List TMS.Handover) :=
  let errors : List String := l.handoverErrors
  if errors ≠ [] then
    .error ("Cannot handover load: " ++ joinSep "; " errors)
  else
    let l1 := Load.save { l with
      status := Status.dispatched,
      tracking_agent := some tracking_agent,
      dispatched_at := some now }
    let h : TMS.Handover := {
      load := some l.load_id, from_agent := l.dispatcher,
      to_agent := some tracking_agent, special_instructions := instructions }
    let l2 := match h.to_agent, h.load with
      | some a, some _ => { l1 with tracking_agent := some a }
      | _, _ => l1
    .ok (l2, handovers ++ [h])

/-- `self.stops.filter(stop_type=DELIVERY)` of src/tms/models_old.py 1164. -/
def Load.deliveryStops (l : Load) : List LoadStop :=
  l.stops.filter (fun s => s.stop_type == StopType.delivery)

/-- `delivery_stops.exclude(status__in=[COMPLETED, SKIPPED])` of
src/tms/models_old.py 1166-1168. -/
def Load.incompleteDeliveryStops (l : Load) : List LoadStop :=
  l.deliveryStops.filter (fun s =>
    !(s.status == StopStatus.completed || s.status == StopStatus.skipped))

/-- The labels of the `REQUIRED_FOR_COMPLETION` document types the load is
missing (src/tms/models_old.py 1174-1178). -/
def Load.missingDeliveryDocs (l : Load) : List String :=
  (TMS.REQUIRED_FOR_COMPLETION.filter
    (fun dt => !(l.documents.any (fun d => d.document_type == dt)))).map
    DocumentType.label

/-- `Load.mark_delivered` (src/tms/models_old.py 1142-1189): IN_TRANSIT →
DELIVERED. When delivery stops exist, each must be completed or skipped
(the excluded incomplete ones must be empty); then every
`REQUIRED_FOR_COMPLETION` document type must exist, with the missing
labels listed in the message. -/
def Load.mark_delivered (l : Load) (now : Nat) : Except String Load :=
  if l.status ≠ Status.in_transit then
    .error "Load is not in IN_TRANSIT status."
  else if l.deliveryStops ≠ [] ∧ l.incompleteDeliveryStops ≠ [] then
    .error "Cannot mark as delivered. All delivery stops must be completed or skipped."
  else if l.missingDeliveryDocs ≠ [] then
    .error ("Cannot mark as delivered. These documents are missing: " ++
      joinSep ", " l.missingDeliveryDocs)
  else
    .ok (Load.save { l with
      status := Status.delivered, delivered_at := some now })

/-- Reschedule request of the multi-stop schema (src/tms/models_old.py
1269-1369): the proposed time targets a specific stop, referenced by id. -/
structure RescheduleRequest where
  load : Nat
  stop : Nat
  original_appointment : Nat
  new_appointment : Nat
  consignee_approved : Bool := false
  broker_approved : Bool := false
  manager_approved : Bool := false
  created_by : Nat
deriving DecidableEq

/-- `RescheduleRequest.is_fully_approved` (src/tms/models_old.py 1356-1361). -/
def RescheduleRequest.is_fully_approved (r : RescheduleRequest) : Bool :=
  r.consignee_approved && r.broker_approved && r.manager_approved

/-- `RescheduleRequest.save` (src/tms/models_old.py 1363-1369): on every
save, if all three approvals hold, copy `new_appointment` into the
referenced stop's `appt_start` (persisted with
`update_fields=["appt_start", "updated_at"]`) inside the same atomic block. -/
def RescheduleRequest.save (r : RescheduleRequest) (s : LoadStop) : LoadStop :=
  if r.is_fully_approved then
    { s with appt_start := some r.new_appointment }
  else
    s

/-- Effect of `Handover.save` (src/tms/models_old.py 1529-1538) on the load
the record references, same rule as in the single-facility schema. -/
def handoverSaveLoad (h : TMS.Handover) (l : Load) : Load :=
  match h.to_agent, h.load with
  | some a, some _ => { l with tracking_agent := some a }
  | _, _ => l

end TMSOld

/-! ## Fixtures and result helpers shared by the theorems -/

/-- True exactly on an `Except.ok` result. -/
def isOkE {ε α : Type} : Except ε α → Bool
  | .ok _ => true
  | .error _ => false

/-- A minimal freshly booked load of the single-facility schema: no assets
assigned, no documents, no financials. -/
def baseLoad : TMS.Load := {
  load_id := 1, status := TMS.Status.booked, carrier := none, truck := none,
  driver := none, dispatcher := 10, tracking_agent := none, documents := [],
  miles := none, rate := none, rpm := none, delivery_datetime := none,
  dispatched_at := none, pickup_departure_at := none, delivered_at := none,
  completed_at := none, cancelled_at := none }

/-- A minimal freshly booked load of the multi-stop schema. -/
def oldBaseLoad : TMSOld.Load := {
  load_id := 1, status := TMS.Status.booked, carrier := none, truck := none,
  driver := none, dispatcher := 10, tracking_agent := none, documents := [],
  stops := [], miles := none, rate := none, rpm := none,
  dispatched_at := none, delivered_at := none, completed_at := none,
  cancelled_at := none }

/-! ## C5 — rpm derivation on save -/

/-- A load whose rate is present but zero, with positive miles. -/
def rpmZeroRateLoad : TMS.Load :=
  { baseLoad with rate := some 0, miles := some 100 }

/-- C5 counterexample: on a load whose rate and miles are both present with
miles = 100 > 0 but rate = 0, saving leaves rpm null instead of the claimed
rate/miles (Python truthiness makes a zero rate fail the guard). -/
theorem C5_counterexample :
    rpmZeroRateLoad.rate = some 0 ∧ rpmZeroRateLoad.miles = some 100 ∧
    (TMS.Load.save rpmZeroRateLoad).rpm = none := by
  refine ⟨rfl, rfl, ?_⟩
  decide

/-- C5 as amended: after every save, rpm equals rate/miles whenever rate and
miles are both present, miles > 0 and rate is non-zero; rpm is absent
whenever either value is absent, miles is zero, or rate is zero; and the
recomputation never reads the incoming rpm value. -/
theorem C5_rpm_recomputed_on_save (l : TMS.Load) :
    (∀ m r, l.miles = some m → l.rate = some r → 0 < m → r ≠ 0 →
      (TMS.Load.save l).rpm = some (r / (m : ℚ))) ∧
    ((l.miles = none ∨ l.rate = none ∨ l.miles = some 0 ∨ l.rate = some 0) →
      (TMS.Load.save l).rpm = none) ∧
    (∀ x, (TMS.Load.save { l with rpm := x }).rpm = (TMS.Load.save l).rpm) := by
  refine ⟨?_, ?_, fun x => rfl⟩
  · intro m r hm hr hmpos hr0
    simp only [TMS.Load.save, TMS.rpmOf, hm, hr]
    rw [if_pos ⟨Nat.pos_iff_ne_zero.mp hmpos, hr0, hmpos⟩]
  · intro h
    rcases hm : l.miles with _ | m <;> rcases hr : l.rate with _ | r <;>
      simp only [TMS.Load.save, TMS.rpmOf, hm, hr] <;>
      rcases h with h | h | h | h <;> simp_all

/-- Witness for `C5_rpm_recomputed_on_save` at concrete loads. -/
theorem C5_witness :
    (TMS.Load.save { baseLoad with miles := some 4, rate := some 6 }).rpm =
      some ((6 : ℚ) / 4) ∧
    (TMS.Load.save baseLoad).rpm = none ∧
    (TMS.Load.save { baseLoad with rpm := some 99 }).rpm =
      (TMS.Load.save baseLoad).rpm := by
  refine ⟨(C5_rpm_recomputed_on_save _).1 4 6 rfl rfl (by decide) (by decide),
    (C5_rpm_recomputed_on_save baseLoad).2.1 (Or.inl rfl), ?_⟩
  exact (C5_rpm_recomputed_on_save baseLoad).2.2 (some 99)

/-! ## C6 — reschedule approval aggregation -/

/-- C6: once all three approval flags are true, saving the reschedule
request copies the proposed time into the live schedule field (the load's
delivery_datetime in the single-facility schema, the stop's appt_start in
the multi-stop schema); re-saving keeps it there, and saving any
not-fully-approved request afterwards leaves the applied value in place. -/
theorem C6_reschedule_apply (r : TMS.RescheduleRequest) (l : TMS.Load)
    (ro : TMSOld.RescheduleRequest) (s : TMSOld.LoadStop) :
    (r.is_fully_approved = true →
      (r.save l).delivery_datetime = some r.new_appointment ∧
      (r.save (r.save l)).delivery_datetime = some r.new_appointment ∧
      (∀ r', TMS.RescheduleRequest.is_fully_approved r' = false →
        (TMS.RescheduleRequest.save r' (r.save l)).delivery_datetime =
          some r.new_appointment)) ∧
    (ro.is_fully_approved = true →
      (ro.save s).appt_start = some ro.new_appointment ∧
      (ro.save (ro.save s)).appt_start = some ro.new_appointment ∧
      (∀ r', TMSOld.RescheduleRequest.is_fully_approved r' = false →
        (TMSOld.RescheduleRequest.save r' (ro.save s)).appt_start =
          some ro.new_appointment)) := by
  constructor
  · intro hap
    refine ⟨?_, ?_, ?_⟩ <;>
      simp only [TMS.RescheduleRequest.save, hap, if_true]
    intro r' hr'
    simp [TMS.RescheduleRequest.save, hr']
  · intro hap
    refine ⟨?_, ?_, ?_⟩ <;>
      simp only [TMSOld.RescheduleRequest.save, hap, if_true]
    intro r' hr'
    simp [TMSOld.RescheduleRequest.save, hr']

/-- A fully approved reschedule request of the single-facility schema. -/
def rrApproved : TMS.RescheduleRequest := {
  load := 1, original_appointment := 2, new_appointment := 8,
  consignee_approved := true, broker_approved := true,
  manager_approved := true, created_by := 11 }

/-- `rrApproved` with the manager approval revoked. -/
def rrRevoked : TMS.RescheduleRequest := { rrApproved with manager_approved := false }

/-- A pending delivery stop with no appointment window. -/
def baseStop : TMSOld.LoadStop := {
  load := 1, stop_type := TMSOld.StopType.delivery, sequence := 2,
  appointment_type := TMSOld.AppointmentType.fcfs, appt_start := none,
  appt_end := none, status := TMSOld.StopStatus.pending }

/-- A fully approved reschedule request of the multi-stop schema. -/
def rrOldApproved : TMSOld.RescheduleRequest := {
  load := 1, stop := 1, original_appointment := 2, new_appointment := 9,
  consignee_approved := true, broker_approved := true,
  manager_approved := true, created_by := 11 }

/-- `rrOldApproved` with the broker approval revoked. -/
def rrOldRevoked : TMSOld.RescheduleRequest :=
  { rrOldApproved with broker_approved := false }

/-- Witness for `C6_reschedule_apply` at concrete requests and targets. -/
theorem C6_witness :
    (rrApproved.save baseLoad).delivery_datetime = some 8 ∧
    (rrApproved.save (rrApproved.save baseLoad)).delivery_datetime = some 8 ∧
    (rrRevoked.save (rrApproved.save baseLoad)).delivery_datetime = some 8 ∧
    (rrOldApproved.save baseStop).appt_start = some 9 ∧
    (rrOldApproved.save (rrOldApproved.save baseStop)).appt_start = some 9 ∧
    (rrOldRevoked.save (rrOldApproved.save baseStop)).appt_start = some 9 := by
  obtain ⟨h1, h2⟩ := C6_reschedule_apply rrApproved baseLoad rrOldApproved baseStop
  obtain ⟨a1, a2, a3⟩ := h1 rfl
  obtain ⟨b1, b2, b3⟩ := h2 rfl
  exact ⟨a1, a2, a3 rrRevoked rfl, b1, b2, b3 rrOldRevoked rfl⟩

/-! ## C10 — Handover.save always reasserts the tracking agent -/

/-- C10: every save of a Handover record with non-null to_agent and load
overwrites the referenced load's tracking_agent with to_agent, in both
schemas, whatever tracking agent the load had before. -/
theorem C10_handover_save_overwrites (h : TMS.Handover) (a lid : Nat)
    (l : TMS.Load) (lo : TMSOld.Load) :
    h.to_agent = some a → h.load = some lid →
    (h.saveLoad l).tracking_agent = some a ∧
    (TMSOld.handoverSaveLoad h lo).tracking_agent = some a := by
  intro ha hl
  unfold TMS.Handover.saveLoad TMSOld.handoverSaveLoad
  rw [ha, hl]
  exact ⟨rfl, rfl⟩

/-- A handover record pointing load 1 at tracking agent 7. -/
def reHandover : TMS.Handover := { load := some 1, from_agent := 10, to_agent := some 7 }

/-- Witness for `C10_handover_save_overwrites`: re-saving the record on
loads that already carry tracking agent 9 replaces it with 7. -/
theorem C10_witness :
    (reHandover.saveLoad { baseLoad with tracking_agent := some 9 }).tracking_agent =
      some 7 ∧
    (TMSOld.handoverSaveLoad reHandover
      { oldBaseLoad with tracking_agent := some 9 }).tracking_agent = some 7 :=
  C10_handover_save_overwrites reHandover 7 1 _ _ rfl rfl

/-! ## C4 — cancellation -/

/-- C4: `cancel` fails with the aggregated terminal-state message exactly
on CANCELLED, DELIVERED or COMPLETED loads; from every other status it
succeeds, sets the status to CANCELLED and `cancelled_at` to the call
time, creates exactly one TONU accessorial of amount 0 attributed to the
load's dispatcher, and frees an assigned truck back to available. -/
theorem C4_cancel (l : TMS.Load) (reason : String) (now : Nat) :
    ((l.status = TMS.Status.cancelled ∨ l.status = TMS.Status.delivered ∨
        l.status = TMS.Status.completed) →
      ∃ msg, l.cancel reason now = .error msg ∧
        containsSub "CANCELLED, DELIVERED or COMPLETED" msg = true) ∧
    (l.status ≠ TMS.Status.cancelled → l.status ≠ TMS.Status.delivered →
      l.status ≠ TMS.Status.completed →
      ∃ l' created, l.cancel reason now = .ok (l', created) ∧
        l'.status = TMS.Status.cancelled ∧ l'.cancelled_at = some now ∧
        created.length = 1 ∧
        (∀ a ∈ created, a.charge_type = TMS.ChargeType.tonu ∧
          a.amount = some 0 ∧ a.created_by = l.dispatcher) ∧
        (∀ t, l.truck = some t →
          l'.truck = some { t with current_status := TMS.TruckStatus.available }) ∧
        (l.truck = none → l'.truck = none)) := by
  constructor
  · intro h
    unfold TMS.Load.cancel
    rw [if_pos (by tauto)]
    exact ⟨_, rfl, by decide⟩
  · intro h1 h2 h3
    unfold TMS.Load.cancel
    rw [if_neg (by tauto)]
    refine ⟨_, _, rfl, rfl, rfl, rfl, ?_, ?_, ?_⟩
    · intro a ha
      simp only [List.mem_singleton] at ha
      subst ha
      exact ⟨rfl, rfl, rfl⟩
    · intro t ht
      simp [TMS.Load.save, ht]
    · intro ht
      simp [TMS.Load.save, ht]

/-- A booked load with an assigned (busy) truck. -/
def truckLoad : TMS.Load :=
  { baseLoad with truck := some { current_status := TMS.TruckStatus.assigned } }

/-- A load that already reached COMPLETED. -/
def completedLoad : TMS.Load := { baseLoad with status := TMS.Status.completed }

/-- Witness for `C4_cancel`: the failure branch on a completed load and the
success branch on a booked load with an assigned truck. -/
theorem C4_witness :
    (∃ msg, completedLoad.cancel "no truck needed" 2 = .error msg ∧
      containsSub "CANCELLED, DELIVERED or COMPLETED" msg = true) ∧
    (∃ l' created, truckLoad.cancel "broker cancelled" 2 = .ok (l', created) ∧
      l'.status = TMS.Status.cancelled ∧ l'.cancelled_at = some 2 ∧
      created.length = 1 ∧
      (∀ a ∈ created, a.charge_type = TMS.ChargeType.tonu ∧
        a.amount = some 0 ∧ a.created_by = truckLoad.dispatcher) ∧
      (∀ t, truckLoad.truck = some t →
        l'.truck = some { t with current_status := TMS.TruckStatus.available }) ∧
      (truckLoad.truck = none → l'.truck = none)) := by
  constructor
  · exact (C4_cancel completedLoad "no truck needed" 2).1 (Or.inr (Or.inr rfl))
  · exact (C4_cancel truckLoad "broker cancelled" 2).2
      (by decide) (by decide) (by decide)

/-! ## C1 — successful handover -/

/-- C1: on a BOOKED load with a Rate Confirmation document and assigned
carrier, truck and driver (all handover preconditions of the
single-facility schema), and no pre-existing Handover record for the load,
`handover_to_tracking` succeeds; afterwards the status is DISPATCHED,
`dispatched_at` equals the transition time, `tracking_agent` equals the
given agent, and exactly one Handover record for the load exists, with
`from_agent` the load's dispatcher and `to_agent` the given agent. -/
theorem C1_handover_success (l : TMS.Load) (agent : Nat) (instr : String)
    (now : Nat) (hs : List TMS.Handover)
    (hb : l.status = TMS.Status.booked)
    (hrc : l.has_rate_confirmation = true)
    (hc : l.carrier ≠ none) (ht : l.truck ≠ none) (hd : l.driver ≠ none)
    (hprior : hs.filter (fun h => h.load == some l.load_id) = []) :
    ∃ l' hs', l.handover_to_tracking agent instr now hs = .ok (l', hs') ∧
      l'.status = TMS.Status.dispatched ∧
      l'.dispatched_at = some now ∧
      l'.tracking_agent = some agent ∧
      (hs'.filter (fun h => h.load == some l.load_id)).length = 1 ∧
      ∀ h ∈ hs'.filter (fun h => h.load == some l.load_id),
        h.from_agent = l.dispatcher ∧ h.to_agent = some agent := by
  have herr : l.handoverErrors = [] := by
    simp [TMS.Load.handoverErrors, hb, hrc, hc, ht, hd]
  simp only [TMS.Load.handover_to_tracking, herr, ne_eq, not_true_eq_false,
    if_false, ite_false]
  refine ⟨_, _, rfl, rfl, rfl, rfl, ?_, ?_⟩
  · simp [List.filter_append, hprior, List.filter]
  · intro h hmem
    simp only [List.filter_append, hprior, List.nil_append] at hmem
    simp only [List.filter, beq_self_eq_true, List.mem_singleton] at hmem
    subst hmem
    exact ⟨rfl, rfl⟩

/-- A booked load meeting every handover precondition of the
single-facility schema. -/
def readyLoad : TMS.Load := { baseLoad with
  carrier := some 3,
  truck := some { current_status := TMS.TruckStatus.assigned },
  driver := some 4,
  documents := [{ document_type := TMS.DocumentType.RC }] }

/-- Witness for `C1_handover_success` on a concrete eligible load with an
empty handover table. -/
theorem C1_witness :
    ∃ l' hs', readyLoad.handover_to_tracking 9 "call driver at pickup" 5 [] =
        .ok (l', hs') ∧
      l'.status = TMS.Status.dispatched ∧
      l'.dispatched_at = some 5 ∧
      l'.tracking_agent = some 9 ∧
      (hs'.filter (fun h => h.load == some readyLoad.load_id)).length = 1 ∧
      ∀ h ∈ hs'.filter (fun h => h.load == some readyLoad.load_id),
        h.from_agent = readyLoad.dispatcher ∧ h.to_agent = some 9 :=
  C1_handover_success readyLoad 9 "call driver at pickup" 5 [] rfl
    (by decide) (by decide) (by decide) (by decide) rfl

/-! ## C2 — aggregated handover failure messages -/

theorem strDataAppend (s t : String) : (s ++ t).data = s.data ++ t.data := by
  cases s
  cases t
  rfl

theorem leadsWith_iff (n : List Char) : ∀ h : List Char,
    leadsWith n h = true ↔ ∃ t, h = n ++ t := by
  induction n with
  | nil => exact fun h => ⟨fun _ => ⟨h, rfl⟩, fun _ => rfl⟩
  | cons a as ih =>
    intro h
    cases h with
    | nil =>
      constructor
      · intro hw
        exact absurd hw (by simp [leadsWith])
      · rintro ⟨t, ht⟩
        exact absurd ht (by simp)
    | cons b bs =>
      constructor
      · intro hw
        have hab : a = b ∧ leadsWith as bs = true := by
          simpa [leadsWith, Bool.and_eq_true, beq_iff_eq] using hw
        obtain ⟨t, ht⟩ := (ih bs).mp hab.2
        exact ⟨t, by simp [hab.1, ht]⟩
      · rintro ⟨t, ht⟩
        obtain ⟨rfl, rfl⟩ : b = a ∧ bs = as ++ t := by
          simpa [eq_comm] using ht
        simp [leadsWith, (ih (as ++ t)).mpr ⟨t, rfl⟩]

theorem subOccurs_iff (n : List Char) : ∀ h : List Char,
    subOccurs n h = true ↔ ∃ s t, h = s ++ n ++ t := by
  intro h
  induction h with
  | nil =>
    constructor
    · intro hw
      have hn : n = [] := by simpa [subOccurs, List.isEmpty_iff] using hw
      exact ⟨[], [], by simp [hn]⟩
    · rintro ⟨s, t, ht⟩
      have h3 : s = [] ∧ n = [] ∧ t = [] := by
        simpa [List.append_eq_nil, and_assoc] using ht.symm
      simp [subOccurs, h3.2.1]
  | cons c cs ih =>
    constructor
    · intro hw
      have hw' : leadsWith n (c :: cs) = true ∨ subOccurs n cs = true := by
        simpa [subOccurs, Bool.or_eq_true] using hw
      rcases hw' with h1 | h2
      · obtain ⟨t, ht⟩ := (leadsWith_iff n (c :: cs)).mp h1
        exact ⟨[], t, by simp [ht]⟩
      · obtain ⟨s, t, ht⟩ := ih.mp h2
        exact ⟨c :: s, t, by simp [ht]⟩
    · rintro ⟨s, t, ht⟩
      cases s with
      | nil =>
        simp only [List.nil_append] at ht
        have hl : leadsWith n (c :: cs) = true :=
          (leadsWith_iff n (c :: cs)).mpr ⟨t, ht⟩
        simp [subOccurs, hl]
      | cons x s' =>
        have hx : c = x ∧ cs = s' ++ n ++ t := by
          simpa using ht
        have hsub : subOccurs n cs = true := ih.mpr ⟨s', t, hx.2⟩
        simp [subOccurs, hsub]

theorem joinSep_data_of_mem (sep m : String) : ∀ msgs : List String,
    m ∈ msgs → ∃ a b, (joinSep sep msgs).data = a ++ m.data ++ b := by
  intro msgs
  induction msgs with
  | nil => intro hm; cases hm
  | cons x rest ih =>
    intro hm
    rcases List.mem_cons.mp hm with rfl | hm'
    · cases rest with
      | nil => exact ⟨[], [], by simp [joinSep]⟩
      | cons y ys =>
        refine ⟨[], (sep ++ joinSep sep (y :: ys)).data, ?_⟩
        simp [joinSep, strDataAppend, List.append_assoc]
    · cases rest with
      | nil => cases hm'
      | cons y ys =>
        obtain ⟨a, b, hab⟩ := ih hm'
        refine ⟨(x ++ sep).data ++ a, b, ?_⟩
        simp [joinSep, strDataAppend, hab, List.append_assoc]

/-- Fragment containment transfers from a list member to the joined
message with any leading text. -/
theorem containsSub_joinSep (frag pre sep m : String) (msgs : List String)
    (hm : m ∈ msgs) (hf : containsSub frag m = true) :
    containsSub frag (pre ++ joinSep sep msgs) = true := by
  obtain ⟨s, t, hst⟩ := (subOccurs_iff frag.data m.data).mp hf
  obtain ⟨a, b, hab⟩ := joinSep_data_of_mem sep m msgs hm
  refine (subOccurs_iff frag.data _).mpr ⟨pre.data ++ a ++ s, t ++ b, ?_⟩
  simp [strDataAppend, hab, hst, List.append_assoc]

/-- When any guard fails, `handover_to_tracking` of the single-facility
schema raises the aggregated message built from `handoverErrors`. -/
theorem handover_error_eq (l : TMS.Load) (agent : Nat) (instr : String)
    (now : Nat) (hs : List TMS.Handover) (hne : l.handoverErrors ≠ []) :
    l.handover_to_tracking agent instr now hs =
      .error ("Cannot handover load: " ++ joinSep "; " l.handoverErrors) := by
  simp only [TMS.Load.handover_to_tracking]
  rw [if_pos hne]

/-- When any guard fails, `handover_to_tracking` of the multi-stop schema
raises the aggregated message built from its `handoverErrors`. -/
theorem handover_error_eq_old (l : TMSOld.Load) (agent : Nat) (instr : String)
    (now : Nat) (hs : List TMS.Handover) (hne : l.handoverErrors ≠ []) :
    l.handover_to_tracking agent instr now hs =
      .error ("Cannot handover load: " ++ joinSep "; " l.handoverErrors) := by
  simp only [TMSOld.Load.handover_to_tracking]
  rw [if_pos hne]

/-- The RC guard message is collected whenever the RC document is absent
(single-facility schema). -/
theorem rc_msg_mem (l : TMS.Load) (hrc : l.has_rate_confirmation = false) :
    "Rate Confirmation document is missing." ∈ l.handoverErrors := by
  unfold TMS.Load.handoverErrors
  refine List.mem_append_left _ (List.mem_append_right _ ?_)
  rw [if_pos hrc]
  exact List.mem_singleton_self _

/-- The carrier/truck/driver guard message is collected whenever any of
the three is absent (single-facility schema). -/
theorem ctd_msg_mem (l : TMS.Load)
    (hctd : l.carrier = none ∨ l.truck = none ∨ l.driver = none) :
    "Carrier, Truck, and Driver must be assigned." ∈ l.handoverErrors := by
  unfold TMS.Load.handoverErrors
  refine List.mem_append_right _ ?_
  rw [if_pos hctd]
  exact List.mem_singleton_self _

/-- The RC guard message is collected whenever the RC document is absent
(multi-stop schema). -/
theorem rc_msg_mem_old (l : TMSOld.Load)
    (hrc : l.has_rate_confirmation = false) :
    "Rate Confirmation document is missing." ∈ l.handoverErrors := by
  unfold TMSOld.Load.handoverErrors
  refine List.mem_append_left _ (List.mem_append_left _ (List.mem_append_left _
    (List.mem_append_right _ ?_)))
  rw [if_pos hrc]
  exact List.mem_singleton_self _

/-- The carrier/truck/driver guard message is collected whenever any of
the three is absent (multi-stop schema). -/
theorem ctd_msg_mem_old (l : TMSOld.Load)
    (hctd : l.carrier = none ∨ l.truck = none ∨ l.driver = none) :
    "Carrier, Truck, and Driver must be assigned." ∈ l.handoverErrors := by
  unfold TMSOld.Load.handoverErrors
  refine List.mem_append_left _ (List.mem_append_left _
    (List.mem_append_right _ ?_))
  rw [if_pos hctd]
  exact List.mem_singleton_self _

/-- C2: whenever a handover precondition is unmet, `handover_to_tracking`
fails with one aggregated message: it contains the Rate-Confirmation
fragment whenever no RC document exists, the carrier/truck/driver fragment
whenever any of the three is absent, and both fragments when both
conditions hold simultaneously — in both schemas. -/
theorem C2_handover_error_aggregation (l : TMS.Load) (lo : TMSOld.Load)
    (agent : Nat) (instr : String) (now : Nat) (hs : List TMS.Handover) :
    (l.has_rate_confirmation = false →
      ∃ msg, l.handover_to_tracking agent instr now hs = .error msg ∧
        containsSub "Rate Confirmation document is missing" msg = true) ∧
    ((l.carrier = none ∨ l.truck = none ∨ l.driver = none) →
      ∃ msg, l.handover_to_tracking agent instr now hs = .error msg ∧
        containsSub "Carrier, Truck, and Driver must be assigned" msg = true) ∧
    (l.has_rate_confirmation = false →
      (l.carrier = none ∨ l.truck = none ∨ l.driver = none) →
      ∃ msg, l.handover_to_tracking agent instr now hs = .error msg ∧
        containsSub "Rate Confirmation document is missing" msg = true ∧
        containsSub "Carrier, Truck, and Driver must be assigned" msg = true) ∧
    (lo.has_rate_confirmation = false →
      ∃ msg, lo.handover_to_tracking agent instr now hs = .error msg ∧
        containsSub "Rate Confirmation document is missing" msg = true) ∧
    ((lo.carrier = none ∨ lo.truck = none ∨ lo.driver = none) →
      ∃ msg, lo.handover_to_tracking agent instr now hs = .error msg ∧
        containsSub "Carrier, Truck, and Driver must be assigned" msg = true) ∧
    (lo.has_rate_confirmation = false →
      (lo.carrier = none ∨ lo.truck = none ∨ lo.driver = none) →
      ∃ msg, lo.handover_to_tracking agent instr now hs = .error msg ∧
        containsSub "Rate Confirmation document is missing" msg = true ∧
        containsSub "Carrier, Truck, and Driver must be assigned" msg = true) := by
  refine ⟨?_, ?_, ?_, ?_, ?_, ?_⟩
  · intro hrc
    have hmem := rc_msg_mem l hrc
    exact ⟨_, handover_error_eq l agent instr now hs (List.ne_nil_of_mem hmem),
      containsSub_joinSep _ _ _ _ _ hmem (by decide)⟩
  · intro hctd
    have hmem := ctd_msg_mem l hctd
    exact ⟨_, handover_error_eq l agent instr now hs (List.ne_nil_of_mem hmem),
      containsSub_joinSep _ _ _ _ _ hmem (by decide)⟩
  · intro hrc hctd
    have hmem1 := rc_msg_mem l hrc
    have hmem2 := ctd_msg_mem l hctd
    exact ⟨_, handover_error_eq l agent instr now hs (List.ne_nil_of_mem hmem1),
      containsSub_joinSep _ _ _ _ _ hmem1 (by decide),
      containsSub_joinSep _ _ _ _ _ hmem2 (by decide)⟩
  · intro hrc
    have hmem := rc_msg_mem_old lo hrc
    exact ⟨_, handover_error_eq_old lo agent instr now hs (List.ne_nil_of_mem hmem),
      containsSub_joinSep _ _ _ _ _ hmem (by decide)⟩
  · intro hctd
    have hmem := ctd_msg_mem_old lo hctd
    exact ⟨_, handover_error_eq_old lo agent instr now hs (List.ne_nil_of_mem hmem),
      containsSub_joinSep _ _ _ _ _ hmem (by decide)⟩
  · intro hrc hctd
    have hmem1 := rc_msg_mem_old lo hrc
    have hmem2 := ctd_msg_mem_old lo hctd
    exact ⟨_, handover_error_eq_old lo agent instr now hs (List.ne_nil_of_mem hmem1),
      containsSub_joinSep _ _ _ _ _ hmem1 (by decide),
      containsSub_joinSep _ _ _ _ _ hmem2 (by decide)⟩

/-- Witness for `C2_handover_error_aggregation` on loads missing both the
RC document and all three assets, in both schemas. -/
theorem C2_witness :
    (∃ msg, baseLoad.handover_to_tracking 9 "" 5 [] = .error msg ∧
      containsSub "Rate Confirmation document is missing" msg = true ∧
      containsSub "Carrier, Truck, and Driver must be assigned" msg = true) ∧
    (∃ msg, oldBaseLoad.handover_to_tracking 9 "" 5 [] = .error msg ∧
      containsSub "Rate Confirmation document is missing" msg = true ∧
      containsSub "Carrier, Truck, and Driver must be assigned" msg = true) := by
  obtain ⟨-, -, h3, -, -, h6⟩ :=
    C2_handover_error_aggregation baseLoad oldBaseLoad 9 "" 5 []
  exact ⟨h3 rfl (Or.inl rfl), h6 rfl (Or.inl rfl)⟩

/-! ## C8 — TONU description and the prior status -/

/-- The descriptions of the accessorial records a cancel call created. -/
def cancelDescriptions :
    Except String (TMS.Load × List TMS.Accessorial) → List String
  | .ok p => p.2.map (fun a => a.description)
  | .error _ => []

/-- The message a failed call raised, if any. -/
def errMsgOf {α : Type} : Except String α → Option String
  | .error m => some m
  | .ok _ => none

/-- C8 (divergence): cancelling a BOOKED load creates a TONU charge whose
description interpolates `self.status` after the transition already ran,
so it always reads "... cancelled at Cancelled"; it never mentions the
prior status (here "Booked"). -/
theorem C8_description_uses_post_transition_status :
    baseLoad.status = TMS.Status.booked ∧
    TMS.Status.label baseLoad.status = "Booked" ∧
    cancelDescriptions (baseLoad.cancel "Broker cancelled" 3) =
      ["TONU charge - Load cancelled at Cancelled"] ∧
    containsSub "Booked" "TONU charge - Load cancelled at Cancelled" = false := by
  decide

/-! ## C7 — stop-count and appointment guards of the multi-stop handover -/

/-- A single stop: a pending first-come-first-serve pickup. -/
def fcfsPickupStop : TMSOld.LoadStop := {
  load := 1, stop_type := TMSOld.StopType.pickup, sequence := 1,
  appointment_type := TMSOld.AppointmentType.fcfs, appt_start := none,
  appt_end := none, status := TMSOld.StopStatus.pending }

/-- `fcfsPickupStop` switched to appointment mode with no window bound. -/
def apptNoWindowStop : TMSOld.LoadStop :=
  { fcfsPickupStop with appointment_type := TMSOld.AppointmentType.appt }

/-- A load with exactly one stop meeting every other handover
precondition of the multi-stop schema. -/
def oneStopLoad : TMSOld.Load := { oldBaseLoad with
  carrier := some 3,
  truck := some { current_status := TMS.TruckStatus.assigned },
  driver := some 4,
  documents := [{ document_type := TMS.DocumentType.RC }],
  stops := [fcfsPickupStop] }

/-- C7 (divergence): the stop-count guard only tests `self.stops.exists()`,
so a load with exactly one stop — fewer than the required two — passes
`can_handover` and its `handover_to_tracking` succeeds; the
appointment-window half of the precondition does hold: the same load with
its stop in `appt` mode and no window bound is refused. -/
theorem C7_single_stop_handover_goes_through :
    oneStopLoad.stops.length = 1 ∧
    TMSOld.Load.can_handover oneStopLoad = true ∧
    isOkE (TMSOld.Load.handover_to_tracking oneStopLoad 9 "" 5 []) = true ∧
    isOkE (TMSOld.Load.handover_to_tracking
      { oneStopLoad with stops := [apptNoWindowStop] } 9 "" 5 []) = false := by
  decide

/-! ## C3 — mark_delivered of the multi-stop schema -/

/-- A document of the wanted type exists exactly when the Django
`documents.filter(document_type=dt).exists()` query is non-empty. -/
theorem anyDoc_iff (docs : List TMS.Document) (dt : TMS.DocumentType) :
    docs.any (fun d => d.document_type == dt) = true ↔
      ∃ d ∈ docs, d.document_type = dt := by
  simp [List.any_eq_true, beq_iff_eq]

/-- The excluded queryset is empty exactly when every delivery stop is
completed or skipped. -/
theorem incompleteDeliveryStops_nil_iff (l : TMSOld.Load) :
    l.incompleteDeliveryStops = [] ↔
      ∀ s ∈ l.stops, s.stop_type = TMSOld.StopType.delivery →
        s.status = TMSOld.StopStatus.completed ∨
          s.status = TMSOld.StopStatus.skipped := by
  unfold TMSOld.Load.incompleteDeliveryStops TMSOld.Load.deliveryStops
  simp only [List.filter_eq_nil, List.mem_filter, Bool.not_eq_true',
    Bool.or_eq_true, beq_iff_eq, Bool.not_eq_true, Bool.or_eq_false_iff,
    and_imp]
  constructor
  · intro h s hs hd
    by_contra hc
    push_neg at hc
    exact h s hs hd ⟨by simp [hc.1], by simp [hc.2]⟩
  · intro h s hs hd hc
    rcases h s hs hd with hcase | hcase <;> rw [hcase] at hc <;> simp at hc

theorem deliveryStops_nil_incomplete (l : TMSOld.Load) :
    l.deliveryStops = [] → l.incompleteDeliveryStops = [] := by
  intro h
  unfold TMSOld.Load.incompleteDeliveryStops
  rw [h]
  rfl

/-- No required document label is missing exactly when both a POD and a
BOL document exist. -/
theorem missingDeliveryDocs_nil_iff (l : TMSOld.Load) :
    l.missingDeliveryDocs = [] ↔
      ((∃ d ∈ l.documents, d.document_type = TMS.DocumentType.POD) ∧
       (∃ d ∈ l.documents, d.document_type = TMS.DocumentType.BOL)) := by
  rw [← anyDoc_iff, ← anyDoc_iff]
  unfold TMSOld.Load.missingDeliveryDocs
  cases hp : l.documents.any (fun d => d.document_type == TMS.DocumentType.POD) <;>
    cases hb : l.documents.any (fun d => d.document_type == TMS.DocumentType.BOL) <;>
      simp [TMS.REQUIRED_FOR_COMPLETION, List.filter, hp, hb]

/-- C3 as amended: `mark_delivered` succeeds iff the load is IN_TRANSIT,
every delivery stop is completed or skipped, and both POD and BOL
documents exist; on success the status becomes DELIVERED with
`delivered_at` stamped; and on an IN_TRANSIT load whose delivery stops are
all completed or skipped, holding a BOL but no POD document, it fails with
a message mentioning "Proof of Delivery" (with a pending delivery stop the
failure instead cites the stops). -/
theorem C3_mark_delivered (l : TMSOld.Load) (now : Nat) :
    (isOkE (l.mark_delivered now) = true ↔
      (l.status = TMS.Status.in_transit ∧
       (∀ s ∈ l.stops, s.stop_type = TMSOld.StopType.delivery →
         s.status = TMSOld.StopStatus.completed ∨
           s.status = TMSOld.StopStatus.skipped) ∧
       (∃ d ∈ l.documents, d.document_type = TMS.DocumentType.POD) ∧
       (∃ d ∈ l.documents, d.document_type = TMS.DocumentType.BOL))) ∧
    (∀ l', l.mark_delivered now = .ok l' →
      l'.status = TMS.Status.delivered ∧ l'.delivered_at = some now) ∧
    (l.status = TMS.Status.in_transit →
      (∀ s ∈ l.stops, s.stop_type = TMSOld.StopType.delivery →
        s.status = TMSOld.StopStatus.completed ∨
          s.status = TMSOld.StopStatus.skipped) →
      (∃ d ∈ l.documents, d.document_type = TMS.DocumentType.BOL) →
      (∀ d ∈ l.documents, d.document_type ≠ TMS.DocumentType.POD) →
      ∃ msg, l.mark_delivered now = .error msg ∧
        containsSub "Proof of Delivery" msg = true) := by
  by_cases hst : l.status = TMS.Status.in_transit
  · by_cases hguard : l.deliveryStops ≠ [] ∧ l.incompleteDeliveryStops ≠ []
    · have hres : l.mark_delivered now = .error
          "Cannot mark as delivered. All delivery stops must be completed or skipped." := by
        unfold TMSOld.Load.mark_delivered
        rw [if_neg (not_not_intro hst), if_pos hguard]
      refine ⟨?_, ?_, ?_⟩
      · rw [hres]
        constructor
        · intro h
          exact absurd h (by simp [isOkE])
        · rintro ⟨-, hall, -⟩
          exact absurd ((incompleteDeliveryStops_nil_iff l).mpr hall) hguard.2
      · intro l' h
        rw [hres] at h
        exact Except.noConfusion h
      · intro _ hall _ _
        exact absurd ((incompleteDeliveryStops_nil_iff l).mpr hall) hguard.2
    · by_cases hmiss : l.missingDeliveryDocs ≠ []
      · have hres : l.mark_delivered now = .error
            ("Cannot mark as delivered. These documents are missing: " ++
              joinSep ", " l.missingDeliveryDocs) := by
          unfold TMSOld.Load.mark_delivered
          rw [if_neg (not_not_intro hst), if_neg hguard, if_pos hmiss]
        refine ⟨?_, ?_, ?_⟩
        · rw [hres]
          constructor
          · intro h
            exact absurd h (by simp [isOkE])
          · rintro ⟨-, -, hpod, hbol⟩
            exact absurd ((missingDeliveryDocs_nil_iff l).mpr ⟨hpod, hbol⟩) hmiss
        · intro l' h
          rw [hres] at h
          exact Except.noConfusion h
        · intro _ _ hbol hnopod
          have hp : l.documents.any
              (fun d => d.document_type == TMS.DocumentType.POD) = false := by
            cases hhp : l.documents.any
                (fun d => d.document_type == TMS.DocumentType.POD) with
            | false => rfl
            | true =>
              obtain ⟨d, hd, hdt⟩ := (anyDoc_iff _ _).mp hhp
              exact absurd hdt (hnopod d hd)
          have hbolb : l.documents.any
              (fun d => d.document_type == TMS.DocumentType.BOL) = true :=
            (anyDoc_iff _ _).mpr hbol
          have hmv : l.missingDeliveryDocs = ["Proof of Delivery"] := by
            unfold TMSOld.Load.missingDeliveryDocs
            simp [TMS.REQUIRED_FOR_COMPLETION, List.filter, hp, hbolb,
              TMS.DocumentType.label]
          refine ⟨_, hres, ?_⟩
          rw [hmv]
          decide
      · have hinc : l.incompleteDeliveryStops = [] := by
          rcases not_and_or.mp hguard with h1 | h2
          · exact deliveryStops_nil_incomplete l (not_not.mp h1)
          · exact not_not.mp h2
        have hm0 : l.missingDeliveryDocs = [] := not_not.mp hmiss
        have hres : l.mark_delivered now = .ok (TMSOld.Load.save { l with
            status := TMS.Status.delivered, delivered_at := some now }) := by
          unfold TMSOld.Load.mark_delivered
          rw [if_neg (not_not_intro hst), if_neg hguard, if_neg hmiss]
        obtain ⟨hpod, hbol⟩ := (missingDeliveryDocs_nil_iff l).mp hm0
        refine ⟨?_, ?_, ?_⟩
        · rw [hres]
          constructor
          · intro _
            exact ⟨hst, (incompleteDeliveryStops_nil_iff l).mp hinc, hpod, hbol⟩
          · intro _
            rfl
        · intro l' h
          have h2 := hres.symm.trans h
          injection h2 with h3
          subst h3
          exact ⟨rfl, rfl⟩
        · intro _ _ _ hnopod
          obtain ⟨d, hd, hdt⟩ := hpod
          exact absurd hdt (hnopod d hd)
  · have hres : l.mark_delivered now = .error "Load is not in IN_TRANSIT status." := by
      unfold TMSOld.Load.mark_delivered
      rw [if_pos hst]
    refine ⟨?_, ?_, ?_⟩
    · rw [hres]
      constructor
      · intro h
        exact absurd h (by simp [isOkE])
      · rintro ⟨h1, -⟩
        exact absurd h1 hst
    · intro l' h
      rw [hres] at h
      exact Except.noConfusion h
    · intro h1 _ _ _
      exact absurd h1 hst

/-- An IN_TRANSIT load with one still-pending delivery stop and only a BOL
document. -/
def bolOnlyStopPendingLoad : TMSOld.Load := { oldBaseLoad with
  status := TMS.Status.in_transit,
  stops := [baseStop],
  documents := [{ document_type := TMS.DocumentType.BOL }] }

/-- C3 counterexample: on an IN_TRANSIT load with only a BOL (no POD)
document but a pending delivery stop, `mark_delivered` does fail, yet its
message cites the stops and does not mention "Proof of Delivery". -/
theorem C3_counterexample :
    bolOnlyStopPendingLoad.status = TMS.Status.in_transit ∧
    bolOnlyStopPendingLoad.documents.any
      (fun d => d.document_type == TMS.DocumentType.BOL) = true ∧
    bolOnlyStopPendingLoad.documents.any
      (fun d => d.document_type == TMS.DocumentType.POD) = false ∧
    errMsgOf (TMSOld.Load.mark_delivered bolOnlyStopPendingLoad 4) =
      some "Cannot mark as delivered. All delivery stops must be completed or skipped." ∧
    containsSub "Proof of Delivery"
      "Cannot mark as delivered. All delivery stops must be completed or skipped." =
      false := by
  decide

/-- An IN_TRANSIT load with a completed delivery stop and both required
documents. -/
def deliveredReadyLoad : TMSOld.Load := { oldBaseLoad with
  status := TMS.Status.in_transit,
  stops := [{ baseStop with status := TMSOld.StopStatus.completed }],
  documents := [{ document_type := TMS.DocumentType.POD },
    { document_type := TMS.DocumentType.BOL }] }

/-- An IN_TRANSIT load without stops holding only a BOL document. -/
def bolOnlyNoStopsLoad : TMSOld.Load := { oldBaseLoad with
  status := TMS.Status.in_transit,
  documents := [{ document_type := TMS.DocumentType.BOL }] }

/-- Witness for `C3_mark_delivered`: the success branch on a ready load
and the POD-mentioning failure on a BOL-only load. -/
theorem C3_witness :
    isOkE (TMSOld.Load.mark_delivered deliveredReadyLoad 4) = true ∧
    (∃ msg, TMSOld.Load.mark_delivered bolOnlyNoStopsLoad 4 = .error msg ∧
      containsSub "Proof of Delivery" msg = true) := by
  constructor
  · exact (C3_mark_delivered deliveredReadyLoad 4).1.mpr
      ⟨rfl, by decide, by decide, by decide⟩
  · exact (C3_mark_delivered bolOnlyNoStopsLoad 4).2.2 rfl (by decide)
      (by decide) (by decide)

/-! ## C9 — accessorial validation -/

/-- A detention charge with both window bounds present but equal (not an
ordered window) and positive billed hours, with no amount. -/
def detEqualWindowAcc : TMS.Accessorial := {
  load := 1, charge_type := TMS.ChargeType.detention, amount := none,
  created_by := 10, detention_start := some 5, detention_end := some 5,
  detention_billed_hours := some 1 }

/-- C9 counterexample: this detention record has both a detention start
and end time and a positive billed-hours value, and its amount is absent
(so not negative), yet validation rejects it — the form additionally
requires the end to lie strictly after the start. -/
theorem C9_counterexample :
    detEqualWindowAcc.charge_type = TMS.ChargeType.detention ∧
    detEqualWindowAcc.amount = none ∧
    detEqualWindowAcc.detention_start = some 5 ∧
    detEqualWindowAcc.detention_end = some 5 ∧
    detEqualWindowAcc.detention_billed_hours = some 1 ∧ (0 : ℚ) < 1 ∧
    TMS.accessorialValid detEqualWindowAcc = false := by
  decide

/-- The validity condition as the amended claim states it: a present
amount must be non-negative; a detention-typed record additionally needs
both window bounds with the end strictly after the start and a positive
billed-hours value; a layover-typed record needs both dates with end on or
after start; records of any other charge type face no per-type check. -/
def accessorialSpecValid (a : TMS.Accessorial) : Prop :=
  (∀ x, a.amount = some x → 0 ≤ x) ∧
  (a.charge_type = TMS.ChargeType.detention →
    ∃ s e h, a.detention_start = some s ∧ a.detention_end = some e ∧ s < e ∧
      a.detention_billed_hours = some h ∧ 0 < h) ∧
  (a.charge_type = TMS.ChargeType.layover →
    ∃ s e, a.layover_start_date = some s ∧ a.layover_end_date = some e ∧ s ≤ e)

/-- C9 as amended: the combined model- and form-level validation accepts
exactly the records satisfying the amended per-type conditions. -/
theorem C9_accessorial_validation (a : TMS.Accessorial) :
    TMS.accessorialValid a = true ↔ accessorialSpecValid a := by
  have hclean : (TMS.Accessorial.cleanOk a = true) ↔
      ∀ x, a.amount = some x → 0 ≤ x := by
    unfold TMS.Accessorial.cleanOk
    cases ham : a.amount <;> simp
  unfold TMS.accessorialValid accessorialSpecValid
  rw [Bool.and_eq_true, hclean]
  apply and_congr_right
  intro _
  unfold TMS.accessorialFormClean
  cases hct : a.charge_type
  case detention =>
    cases hds : a.detention_start <;> cases hde : a.detention_end <;>
      cases hdh : a.detention_billed_hours <;> simp [hds, hde, hdh]
  case layover =>
    cases hls : a.layover_start_date <;> cases hle : a.layover_end_date <;>
      simp [hls, hle]
  case tonu => simp
  case lumper => simp
  case other => simp

/-- `detEqualWindowAcc` with a properly ordered detention window. -/
def detValidAcc : TMS.Accessorial :=
  { detEqualWindowAcc with detention_end := some 7 }

/-- Witness for `C9_accessorial_validation`: the amended condition accepts
a well-formed detention charge. -/
theorem C9_witness : TMS.accessorialValid detValidAcc = true :=
  (C9_accessorial_validation detValidAcc).mpr
    ⟨fun _ hx => Option.noConfusion hx,
     fun _ => ⟨5, 7, 1, rfl, rfl, by decide, rfl, by decide⟩,
     fun hct => absurd hct (by decide)⟩
